import Mathlib

/-!
A shallow embedding of `MultiTimer.py`.

This file embeds the core of the MultiTimer menu-bar utility in Lean 4 and
proves properties of the embedding.

Modelling conventions:
* Timestamps and durations are exact integer numbers of seconds (`ℤ`).
  The Python source works with `datetime` / float seconds; no property
  treated here depends on fractional seconds, and `datetime` arithmetic is
  purely additive, so exact integers are a faithful time domain.
* The private `threading.Timer` held in `SimpleTimer.__timer` is modelled by
  the fields `pinterval`, `pstart`, `pcancelled`, `pfired`: a deferred
  callback that, once started, fires exactly once at `pstart + pinterval`
  unless it is cancelled before that instant (the single-fire,
  cancel-before-fire contract of `threading.Timer`).
* Methods that can raise in Python return `Option` (`none` = the exception
  escapes); the UI handler that can raise returns `Except`, carrying the
  program state at the moment the exception escaped.
* Python object identity (used by `list.index` / `list.remove`, since
  `SimpleTimer` does not override `__eq__`) is modelled by giving each timer
  object a distinct identity number `oid`.
-/

namespace MultiTimer

/-- State of one countdown timer: the attributes of the Python class
`SimpleTimer` (`MultiTimer.py` lines 15-28), together with the state of its
private `threading.Timer` (`pinterval`, `pstart`, `pcancelled`, `pfired`) and
the stored callback argument list `args`.  `stored_time_remaining` models the
private attribute `self.__time_remaining`, which does not exist (`none`)
until the first `pause()`. -/
structure SimpleTimer where
  title : String
  duration : ℤ
  started : Bool
  paused : Bool
  finished : Bool
  args : List String
  creation_time : ℤ
  end_time : ℤ
  stored_time_remaining : Option ℤ
  pinterval : ℤ
  pstart : Option ℤ
  pcancelled : Bool
  pfired : Bool
deriving DecidableEq

/-- Constructor `SimpleTimer.__init__` (lines 18-28): a fresh timer created at instant
`now` with the given title, duration and stored callback arguments.  The
pending `threading.Timer` is created with interval `duration` but not yet
started. -/
def mkSimpleTimer (title : String) (duration : ℤ) (args : List String)
    (now : ℤ) : SimpleTimer :=
  { title := title
    duration := duration
    started := false
    paused := false
    finished := false
    args := args
    creation_time := now
    end_time := now + duration
    stored_time_remaining := none
    pinterval := duration
    pstart := none
    pcancelled := false
    pfired := false }

/-- One recorded invocation of the completion callback.  Python line 71,
`self.action(self, *self.args)`, passes the timer object itself followed by
the stored argument list. -/
structure CallRec where
  timer : SimpleTimer
  callArgs : List String
deriving DecidableEq

namespace SimpleTimer

/-- The `time_remaining` property (lines 30-39), evaluated at instant `now`.
`none` models the `AttributeError` Python would raise if
`self.__time_remaining` were read before any `pause()` (unreachable in the
program). -/
def time_remaining (st : SimpleTimer) (now : ℤ) : Option ℤ :=
  if st.finished then some 0
  else if st.paused then st.stored_time_remaining
  else some (st.end_time - now)

/-- Method `start()` (lines 41-45), called at instant `now`: sets `started` and
starts the pending `threading.Timer`. -/
def start (st : SimpleTimer) (now : ℤ) : SimpleTimer :=
  { st with started := true, pstart := some now }

/-- Method `cancel()` (lines 47-50): cancels the pending `threading.Timer`.  No
attribute of the `SimpleTimer` object itself is written. -/
def cancel (st : SimpleTimer) : SimpleTimer :=
  { st with pcancelled := true }

/-- Method `pause()` (lines 52-57), called at instant `now`: stores the current
`time_remaining` into `self.__time_remaining`, sets `paused`, and cancels
the pending `threading.Timer`. -/
def pause (st : SimpleTimer) (now : ℤ) : Option SimpleTimer :=
  (time_remaining st now).map fun tr =>
    { st with stored_time_remaining := some tr, paused := true, pcancelled := true }

/-- Method `resume()` (lines 59-65), called at instant `now`: recomputes `end_time`
as `now + time_remaining`, replaces the private `threading.Timer` with a
fresh one of interval `time_remaining` and starts it, then clears `paused`.
Both reads of `self.time_remaining` in the source yield the same value
(the first read happens before any write, and when `paused` holds the
property ignores `end_time`), so a single `tr` is bound here. -/
def resume (st : SimpleTimer) (now : ℤ) : Option SimpleTimer :=
  (time_remaining st now).map fun tr =>
    { st with end_time := now + tr
              pinterval := tr
              pstart := some now
              pcancelled := false
              pfired := false
              paused := false }

/-- Method `run_action()` (lines 67-71): sets `finished`, then calls
`self.action(self, *self.args)`.  Returns the updated timer together with
the record of the callback invocation (the timer object passed as `self`
already has `finished = true` at that point). -/
def run_action (st : SimpleTimer) : SimpleTimer × CallRec :=
  let st1 : SimpleTimer := { st with finished := true }
  (st1, ⟨st1, st1.args⟩)

/-- The instant at which the pending `threading.Timer` will invoke
`run_action`, if any: it must have been started, not cancelled, and not have
fired already (`threading.Timer` fires at most once). -/
def fireTime (st : SimpleTimer) : Option ℤ :=
  match st.pstart with
  | none => none
  | some s => if st.pcancelled || st.pfired then none else some (s + st.pinterval)

end SimpleTimer

/-- A user-initiated operation on one timer. -/
inductive UEvent
  | pauseE
  | resumeE
  | cancelE
deriving DecidableEq

/-- A timer together with the log of completion-callback invocations made so
far on its behalf. -/
structure Sys where
  st : SimpleTimer
  calls : List CallRec
deriving DecidableEq

/-- Let real time advance to instant `upTo`: if the pending
`threading.Timer` is due at some instant `tf ≤ upTo`, it fires `run_action`
(once - the model marks it `pfired`), appending the callback invocation to
the log. -/
def fireIfDue (sys : Sys) (upTo : ℤ) : Sys :=
  match SimpleTimer.fireTime sys.st with
  | none => sys
  | some tf =>
    if tf ≤ upTo then
      let p := SimpleTimer.run_action { sys.st with pfired := true }
      { st := p.1, calls := sys.calls ++ [p.2] }
    else sys

/-- Perform one user event at instant `t`: first any pending callback due
before `t` fires, then the requested method runs.  `none` propagates an
exception raised by the method. -/
def applyEvent (sys : Sys) (t : ℤ) (e : UEvent) : Option Sys :=
  let sys1 := fireIfDue sys t
  match e with
  | UEvent.pauseE => (SimpleTimer.pause sys1.st t).map fun st1 => { sys1 with st := st1 }
  | UEvent.resumeE => (SimpleTimer.resume sys1.st t).map fun st1 => { sys1 with st := st1 }
  | UEvent.cancelE => some { sys1 with st := SimpleTimer.cancel sys1.st }

/-- Run a chronological list of timed user events. -/
def runEvents (sys : Sys) : List (ℤ × UEvent) → Option Sys
  | [] => some sys
  | (t, e) :: rest => (applyEvent sys t e).bind fun sys1 => runEvents sys1 rest

/-- Run a chronological list of timed user events, then let real time
advance to the instant `horizon`. -/
def runTo (sys : Sys) (horizon : ℤ) (events : List (ℤ × UEvent)) : Option Sys :=
  (runEvents sys events).map fun sys1 => fireIfDue sys1 horizon

/-- A `SimpleTimer` object as the registry sees it: `oid` models Python
object identity (the default `__eq__` compares identity, so two timers with
equal titles are still distinct objects). -/
structure TimerObj where
  oid : Nat
  title : String
deriving DecidableEq

/-- Python `list.index(x)` (first index whose element equals `x`); `none`
models the `ValueError` raised when `x` is absent. -/
def pyIndex {α : Type} [DecidableEq α] : List α → α → Option Nat
  | [], _ => none
  | a :: rest, x => if a = x then some 0 else (pyIndex rest x).map (· + 1)

/-- Python `list.pop(i)`: the removed element and the remaining list; `none`
models the `IndexError` raised when `i` is out of range. -/
def pyPop {α : Type} (l : List α) (i : Nat) : Option (α × List α) :=
  match l.get? i with
  | none => none
  | some a => some (a, l.eraseIdx i)

/-- Python `list.remove(x)`: removes the first element equal to `x`; `none`
models the `ValueError` raised when `x` is absent. -/
def pyRemove {α : Type} [DecidableEq α] (l : List α) (x : α) : Option (List α) :=
  (pyIndex l x).map fun i => l.eraseIdx i

/-- The module-level registry: the parallel lists `active_timers` (line 6)
and `timer_submenus` (line 7).  Submenu handles are opaque and modelled by
numbers. -/
structure Registry where
  active_timers : List TimerObj
  timer_submenus : List Nat
deriving DecidableEq

/-- The registry effect of `cancel_timer` (lines 95-103):
`timer_submenus.pop(active_timers.index(timer))` followed by
`active_timers.remove(timer)`.  (`submenu.delete()` and `timer.cancel()` act
on the UI object and the engine object, not on the registry lists.) -/
def cancel_timer (reg : Registry) (t : TimerObj) : Option Registry :=
  match pyIndex reg.active_timers t with
  | none => none
  | some i =>
    match pyPop reg.timer_submenus i with
    | none => none
    | some p =>
      (pyRemove reg.active_timers t).map fun ts1 =>
        { active_timers := ts1, timer_submenus := p.2 }

/-- The registry effect of `show_alert` (lines 73-81): the same
pop-at-index / remove-by-identity pair as `cancel_timer`. -/
def show_alert (reg : Registry) (t : TimerObj) : Option Registry :=
  match pyIndex reg.active_timers t with
  | none => none
  | some i =>
    match pyPop reg.timer_submenus i with
    | none => none
    | some p =>
      (pyRemove reg.active_timers t).map fun ts1 =>
        { active_timers := ts1, timer_submenus := p.2 }

/-- The top-level status indicator menu item: its title and enabled flag. -/
structure StatusIndicator where
  title : String
  enabled : Bool
deriving DecidableEq

/-- Function `update_status_indicator` (lines 83-93): rewrites the status indicator
from the current number of active timers.  Note that only the
`num_timers = 0` branch touches `enabled`. -/
def update_status_indicator (reg : Registry) (ind : StatusIndicator) : StatusIndicator :=
  let num_timers := reg.active_timers.length
  if num_timers = 0 then { title := "No active timers", enabled := false }
  else if num_timers = 1 then { ind with title := "1 active timer" }
  else { ind with title := toString num_timers ++ " active timers" }

/-- Python `str.zfill(2)` on a digit string: left-pad with `'0'` to length
2. -/
def zfill2 (s : String) : String :=
  if s.length < 2 then String.mk (List.replicate (2 - s.length) '0') ++ s else s

/-- Python `divmod(a, b)`: floored quotient and remainder. -/
def divmod (a b : ℤ) : ℤ × ℤ :=
  (Int.fdiv a b, Int.fmod a b)

/-- The zero-padded `MM:SS` part of the remaining-time string computed by
`update_submenus` (lines 131-133) and, identically, by `pause_timer`
(lines 117-119). -/
def mmss_str (total_seconds : ℤ) : String :=
  let remainder := (divmod total_seconds 3600).2
  let ms := divmod remainder 60
  zfill2 (toString ms.1) ++ ":" ++ zfill2 (toString ms.2)

/-- The full remaining-time string computed by `update_submenus`
(lines 131-135): the zero-padded `MM:SS` part, prefixed with a zero-padded
hours field exactly when `hours > 0`. -/
def submenu_time_str (total_seconds : ℤ) : String :=
  let hours := (divmod total_seconds 3600).1
  if hours > 0 then zfill2 (toString hours) ++ ":" ++ mmss_str total_seconds
  else mmss_str total_seconds

/-- The remaining-time string computed by `start_timer` for the freshly
created submenu label (lines 157-161).  Unlike `update_submenus` and
`pause_timer`, it applies no `zfill`: the fields are bare `str(int(...))`. -/
def start_time_str (total_seconds : ℤ) : String :=
  let remainder := (divmod total_seconds 3600).2
  let ms := divmod remainder 60
  let base := toString ms.1 ++ ":" ++ toString ms.2
  if (divmod total_seconds 3600).1 > 0 then toString (divmod total_seconds 3600).1 ++ ":" ++ base
  else base

/-- The title text `start_timer` builds for a custom timer (lines 146-150).
Python renders the float duration with `round(...)` / f-string formatting;
the exact decimal rendering is not relied on by any theorem here. -/
def custom_title (duration : ℚ) : String :=
  if duration < 60 then toString duration ++ " seconds"
  else toString (duration / 60) ++ " minutes"

/-- Digit list to number, for the `float()` model. -/
def digitsToNat (cs : List Char) : ℕ :=
  cs.foldl (fun n c => 10 * n + (c.toNat - 48)) 0

/-- Python `float()` on the dialog text, restricted to plain decimal
literals (optional sign, digits, optional decimal point): `none` models the
`ValueError` raised on non-numeric text.  (Exotic forms such as `"1e3"`,
`"inf"` or surrounding whitespace are outside this model.) -/
def pyFloat (s : String) : Option ℚ :=
  let p : ℚ × List Char :=
    match s.toList with
    | '-' :: rest => (-1, rest)
    | '+' :: rest => (1, rest)
    | cs => (1, cs)
  match p.2.splitOn '.' with
  | [intpart] =>
    if intpart ≠ [] ∧ intpart.all Char.isDigit then
      some (p.1 * (digitsToNat intpart : ℚ))
    else none
  | [intpart, fracpart] =>
    if (intpart ≠ [] ∨ fracpart ≠ []) ∧ intpart.all Char.isDigit ∧ fracpart.all Char.isDigit then
      some (p.1 * ((digitsToNat intpart : ℚ) + (digitsToNat fracpart : ℚ) / 10 ^ fracpart.length))
    else none
  | _ => none

/-- The registry/indicator effect of `start_timer` (lines 142-167): compute
the title, append the new timer object to `active_timers`, enable the status
indicator and refresh it, then append the new submenu handle to
`timer_submenus`.  `oid` is the identity of the freshly created timer object
and `handle` the freshly created submenu handle. -/
def start_timer (reg : Registry) (ind : StatusIndicator) (item_title : String)
    (duration : ℚ) (oid : Nat) (handle : Nat) : Registry × StatusIndicator :=
  let title := if item_title = "Custom Timer..." then custom_title duration else item_title
  let reg1 : Registry := { reg with active_timers := reg.active_timers ++ [⟨oid, title⟩] }
  let ind1 := update_status_indicator reg1 { ind with enabled := true }
  let reg2 : Registry := { reg1 with timer_submenus := reg1.timer_submenus ++ [handle] }
  (reg2, ind1)

/-- Handler `create_custom_timer` (lines 169-175): `response` is `none` when the
user cancelled the dialog, otherwise the entered text.  A non-numeric text
makes `float(response[1])` raise; the exception escapes the handler before
any mutation, which `Except.error` records together with the program state
at that moment.  (The menu-bar host confines a handler exception to that one
invocation; the process itself keeps running.) -/
def create_custom_timer (reg : Registry) (ind : StatusIndicator) (item_title : String)
    (response : Option String) (oid : Nat) (handle : Nat) :
    Except (Registry × StatusIndicator) (Registry × StatusIndicator) :=
  match response with
  | none => Except.ok (reg, ind)
  | some text =>
    match pyFloat text with
    | none => Except.error (reg, ind)
    | some duration => Except.ok (start_timer reg ind item_title (duration * 60) oid handle)

/-! Helper lemmas shared by the claim theorems. -/

/-- A system whose pending callback is cancelled is unaffected by the
passage of time. -/
theorem fireIfDue_of_cancelled {sys : Sys} (h : sys.st.pcancelled = true) (upTo : ℤ) :
    fireIfDue sys upTo = sys := by
  unfold fireIfDue SimpleTimer.fireTime
  cases hp : sys.st.pstart <;> simp [h]

/-- A successful `pause()` always leaves the pending callback cancelled. -/
theorem pause_pcancelled {st : SimpleTimer} {t : ℤ} {s : SimpleTimer}
    (h : SimpleTimer.pause st t = some s) : s.pcancelled = true := by
  cases htr : SimpleTimer.time_remaining st t with
  | none => simp [SimpleTimer.pause, htr] at h
  | some tr =>
    simp only [SimpleTimer.pause, htr, Option.map_some'] at h
    injection h with h
    subst h
    rfl

/-- Once the pending callback is cancelled, any run consisting of `pause`
and `cancel` events (no `resume`) keeps it cancelled and makes no callback
invocation. -/
theorem runEvents_no_resume_of_cancelled (events : List (ℤ × UEvent)) :
    ∀ sys : Sys, sys.st.pcancelled = true →
      (∀ p ∈ events, p.2 ≠ UEvent.resumeE) →
      ∀ s, runEvents sys events = some s →
        s.st.pcancelled = true ∧ s.calls = sys.calls := by
  induction events with
  | nil =>
    intro sys hc _ s hs
    simp only [runEvents] at hs
    injection hs with hs
    subst hs
    exact ⟨hc, rfl⟩
  | cons p rest ih =>
    intro sys hc hnores s hs
    obtain ⟨t, e⟩ := p
    have he : e ≠ UEvent.resumeE := hnores (t, e) (List.mem_cons_self _ _)
    have hrest : ∀ q ∈ rest, q.2 ≠ UEvent.resumeE :=
      fun q hq => hnores q (List.mem_cons_of_mem _ hq)
    cases e with
    | resumeE => exact absurd rfl he
    | cancelE =>
      simp only [runEvents, applyEvent, fireIfDue_of_cancelled hc, Option.some_bind] at hs
      obtain ⟨h1, h2⟩ := ih { sys with st := SimpleTimer.cancel sys.st } rfl hrest s hs
      exact ⟨h1, h2⟩
    | pauseE =>
      simp only [runEvents, applyEvent, fireIfDue_of_cancelled hc] at hs
      cases htr : SimpleTimer.pause sys.st t with
      | none => rw [htr] at hs; simp at hs
      | some st1 =>
        rw [htr] at hs
        simp only [Option.map_some', Option.some_bind] at hs
        obtain ⟨h1, h2⟩ := ih { sys with st := st1 } (pause_pcancelled htr) hrest s hs
        exact ⟨h1, h2⟩

/-- Python `list.index` returns exactly the position of an element when the
object identities in the list are pairwise distinct. -/
theorem pyIndex_of_get (ts : List TimerObj) :
    ∀ (i : Nat) (t : TimerObj), (ts.map TimerObj.oid).Nodup →
      ts.get? i = some t → pyIndex ts t = some i := by
  induction ts with
  | nil => intro i t _ h; simp at h
  | cons a rest ih =>
    intro i t hnd hget
    rw [List.map_cons, List.nodup_cons] at hnd
    cases i with
    | zero =>
      rw [List.get?_cons_zero] at hget
      injection hget with hget
      subst hget
      simp [pyIndex]
    | succ n =>
      rw [List.get?_cons_succ] at hget
      have hmem : t ∈ rest := List.get?_mem hget
      have hne : ¬ a = t := by
        intro he
        exact hnd.1 (he ▸ List.mem_map_of_mem TimerObj.oid hmem)
      rw [pyIndex, if_neg hne, ih n t hnd.2 hget]
      rfl

/-- Deleting the same position from two lists of equal length commutes with
zipping them. -/
theorem zip_eraseIdx {α β : Type} :
    ∀ (l1 : List α) (l2 : List β) (i : Nat), l1.length = l2.length →
      (l1.eraseIdx i).zip (l2.eraseIdx i) = (l1.zip l2).eraseIdx i := by
  intro l1
  induction l1 with
  | nil => intro l2 i h; simp
  | cons a l1 ih =>
    intro l2 i h
    cases l2 with
    | nil => simp at h
    | cons b l2 =>
      cases i with
      | zero => simp
      | succ n =>
        simp only [List.eraseIdx_cons_succ, List.zip_cons_cons]
        rw [ih l2 n (by simpa using h)]

/-- Rendering a nonnegative integer renders its natural-number value. -/
theorem int_toString_ofNat (m : ℕ) : toString (Int.ofNat m) = toString m := rfl

/-- The decimal rendering of an integer in `[0, 60)` takes at most two
characters. -/
theorem toString_length_le_two {n : ℤ} (h0 : 0 ≤ n) (h60 : n < 60) :
    (toString n).length ≤ 2 := by
  lift n to ℕ using h0 with m
  have hm : m < 60 := by exact_mod_cast h60
  have hall : ∀ k : Fin 60, (toString (k : ℕ)).length ≤ 2 := by decide
  have := hall ⟨m, hm⟩
  simpa [int_toString_ofNat] using this

/-- Zero-padding a string of at most two characters yields exactly two
characters. -/
theorem zfill2_length {s : String} (h : s.length ≤ 2) : (zfill2 s).length = 2 := by
  rw [zfill2]
  by_cases h2 : s.length < 2
  · rw [if_pos h2]
    simp only [String.length_append, String.length_mk, List.length_replicate]
    omega
  · rw [if_neg h2]
    omega

/-- The `MM:SS` part of the refreshed remaining-time string always consists
of two two-digit zero-padded fields separated by a colon (length 5). -/
theorem mmss_str_length (t : ℤ) : (mmss_str t).length = 5 := by
  have hr0 : 0 ≤ Int.fmod t 3600 := Int.fmod_nonneg' t (by decide)
  have hrlt : Int.fmod t 3600 < 3600 := Int.fmod_lt_of_pos t (by decide)
  have hm0 : 0 ≤ Int.fdiv (Int.fmod t 3600) 60 := Int.fdiv_nonneg hr0 (by decide)
  have hmlt : Int.fdiv (Int.fmod t 3600) 60 < 60 := by
    rw [Int.fdiv_eq_ediv _ (by decide)]
    omega
  have hs0 : 0 ≤ Int.fmod (Int.fmod t 3600) 60 := Int.fmod_nonneg' _ (by decide)
  have hslt : Int.fmod (Int.fmod t 3600) 60 < 60 := Int.fmod_lt_of_pos _ (by decide)
  simp only [mmss_str, divmod, String.length_append,
    zfill2_length (toString_length_le_two hm0 hmlt),
    zfill2_length (toString_length_le_two hs0 hslt)]
  rfl

/-! The claim theorems. -/

/-- C1: for every started, running (not paused, not finished) timer, pausing
at instant `t` and resuming immediately at the same instant `t` succeeds,
leaves `time_remaining` unchanged, and returns the timer to the running
state: not paused, still started, not finished, with a live (uncancelled)
pending completion callback. -/
theorem C1_pause_resume_preserves_time_remaining (st : SimpleTimer) (t : ℤ)
    (hstarted : st.started = true) (hpaused : st.paused = false)
    (hfin : st.finished = false) :
    ∃ st2, (SimpleTimer.pause st t).bind (fun s => SimpleTimer.resume s t) = some st2 ∧
      SimpleTimer.time_remaining st2 t = SimpleTimer.time_remaining st t ∧
      st2.paused = false ∧ st2.started = true ∧ st2.finished = false ∧
      st2.pcancelled = false := by
  refine ⟨{ st with stored_time_remaining := some (st.end_time - t),
                    end_time := t + (st.end_time - t),
                    pinterval := st.end_time - t,
                    pstart := some t, pcancelled := false, pfired := false,
                    paused := false }, ?_, ?_, rfl, hstarted, hfin, rfl⟩
  · simp [SimpleTimer.pause, SimpleTimer.resume, SimpleTimer.time_remaining, hpaused, hfin]
  · simp [SimpleTimer.time_remaining, hpaused, hfin]

/-- C1 witness: a concrete started one-minute timer paused and resumed at
instant 30. -/
theorem C1_witness :
    ∃ st2, (SimpleTimer.pause (SimpleTimer.start (mkSimpleTimer "1 minute" 60 [] 0) 0) 30).bind
        (fun s => SimpleTimer.resume s 30) = some st2 ∧
      SimpleTimer.time_remaining st2 30 =
        SimpleTimer.time_remaining (SimpleTimer.start (mkSimpleTimer "1 minute" 60 [] 0) 0) 30 ∧
      st2.paused = false ∧ st2.started = true ∧ st2.finished = false ∧
      st2.pcancelled = false :=
  C1_pause_resume_preserves_time_remaining _ 30 rfl rfl rfl

/-- C2: `time_remaining` is zero when the timer is finished; it is the
stored remaining duration - which `pause()` captures as the value of
`time_remaining` at the instant of pausing - when the timer is paused; and
otherwise it is `end_time - now`, which is negative once `now` has passed
`end_time`. -/
theorem C2_time_remaining_cases (st : SimpleTimer) (now t : ℤ) :
    (st.finished = true → SimpleTimer.time_remaining st now = some 0) ∧
    (st.finished = false → st.paused = true →
      SimpleTimer.time_remaining st now = st.stored_time_remaining) ∧
    (st.finished = false → st.paused = false →
      SimpleTimer.time_remaining st now = some (st.end_time - now)) ∧
    (∀ s, SimpleTimer.pause st t = some s →
      s.stored_time_remaining = SimpleTimer.time_remaining st t) ∧
    (st.finished = false → st.paused = false → st.end_time < now →
      ∃ r, SimpleTimer.time_remaining st now = some r ∧ r < 0) := by
  refine ⟨fun h => by simp [SimpleTimer.time_remaining, h],
    fun h1 h2 => by simp [SimpleTimer.time_remaining, h1, h2],
    fun h1 h2 => by simp [SimpleTimer.time_remaining, h1, h2],
    fun s hs => ?_,
    fun h1 h2 h3 => ⟨st.end_time - now, by simp [SimpleTimer.time_remaining, h1, h2], by omega⟩⟩
  cases htr : SimpleTimer.time_remaining st t with
  | none => simp [SimpleTimer.pause, htr] at hs
  | some tr =>
    simp only [SimpleTimer.pause, htr, Option.map_some'] at hs
    injection hs with hs
    subst hs
    rfl

/-- C2 witness: a concrete unpaused one-minute timer read after its end
time, showing the negative value. -/
theorem C2_witness :
    SimpleTimer.time_remaining (mkSimpleTimer "1 minute" 60 [] 0) 70 =
      some ((mkSimpleTimer "1 minute" 60 [] 0).end_time - 70) ∧
    (∃ r, SimpleTimer.time_remaining (mkSimpleTimer "1 minute" 60 [] 0) 70 = some r ∧ r < 0) :=
  ⟨(C2_time_remaining_cases (mkSimpleTimer "1 minute" 60 [] 0) 70 0).2.2.1 rfl rfl,
   (C2_time_remaining_cases (mkSimpleTimer "1 minute" 60 [] 0) 70 0).2.2.2.2 rfl rfl (by decide)⟩

/-- C3: a timer created and started at `t0` and left alone (no pause, no
cancel) until a horizon past its natural expiry fires its completion
callback exactly once: the call log holds exactly one record, whose callee
is the timer object itself (with `finished = true` and `time_remaining`
equal to zero at the moment of invocation) followed by the stored
arguments. -/
theorem C3_natural_expiry_fires_once (title : String) (d : ℤ) (args : List String)
    (t0 T : ℤ) (hT : t0 + d ≤ T) :
    ∃ stf, runTo ⟨SimpleTimer.start (mkSimpleTimer title d args t0) t0, []⟩ T [] =
        some ⟨stf, [⟨stf, args⟩]⟩ ∧
      stf.finished = true ∧
      ∀ now, SimpleTimer.time_remaining stf now = some 0 := by
  refine ⟨{ title := title, duration := d, started := true, paused := false,
            finished := true, args := args, creation_time := t0, end_time := t0 + d,
            stored_time_remaining := none, pinterval := d, pstart := some t0,
            pcancelled := false, pfired := true }, ?_, rfl, fun now => rfl⟩
  simp [runTo, runEvents, fireIfDue, SimpleTimer.fireTime, SimpleTimer.start,
    SimpleTimer.run_action, mkSimpleTimer, hT]

/-- C3 witness: a concrete one-minute timer started at 0 and observed at
horizon 60. -/
theorem C3_witness :
    ∃ stf, runTo ⟨SimpleTimer.start (mkSimpleTimer "1 minute" 60 [] 0) 0, []⟩ 60 [] =
        some ⟨stf, [⟨stf, []⟩]⟩ ∧
      stf.finished = true ∧
      ∀ now, SimpleTimer.time_remaining stf now = some 0 :=
  C3_natural_expiry_fires_once "1 minute" 60 [] 0 60 (by decide)

/-- C4 counterexample: a timer started at 0 with duration 300 is paused at
10 and cancelled at 20 - before its natural expiry, from the paused state -
yet a later `resume()` at 30 re-creates and starts a fresh `threading.Timer`
and the completion callback does fire (one call in the log by horizon 500).
So cancellation does not silence the callback in every subsequent execution
of the timer. -/
theorem C4_counterexample :
    ∃ s, runTo ⟨SimpleTimer.start (mkSimpleTimer "5 minutes" 300 [] 0) 0, []⟩ 500
        [(10, UEvent.pauseE), (20, UEvent.cancelE), (30, UEvent.resumeE)] = some s ∧
      s.calls.length = 1 :=
  ⟨_, rfl, rfl⟩

/-- C4 (amended): after `cancel()`, the completion callback never fires at
any later time in any subsequent execution that does not call `resume()`:
whatever further `pause` or `cancel` events occur, and however far time
advances, the call log never grows. -/
theorem C4_cancel_prevents_fire_without_resume (st : SimpleTimer)
    (calls : List CallRec) (T : ℤ) (events : List (ℤ × UEvent))
    (hnores : ∀ p ∈ events, p.2 ≠ UEvent.resumeE) :
    ∀ s, runTo ⟨SimpleTimer.cancel st, calls⟩ T events = some s →
      s.calls = calls := by
  intro s hs
  rw [runTo] at hs
  cases hr : runEvents ⟨SimpleTimer.cancel st, calls⟩ events with
  | none => rw [hr] at hs; simp at hs
  | some s1 =>
    rw [hr] at hs
    simp only [Option.map_some'] at hs
    obtain ⟨h1, h2⟩ := runEvents_no_resume_of_cancelled events ⟨SimpleTimer.cancel st, calls⟩
      rfl hnores s1 hr
    injection hs with hs
    subst hs
    rw [fireIfDue_of_cancelled h1]
    exact h2

/-- C4 witness: a concrete started one-minute timer cancelled at once, then
paused at 10 and left until horizon 300: no callback fires. -/
theorem C4_witness :
    runTo ⟨SimpleTimer.cancel (SimpleTimer.start (mkSimpleTimer "1 minute" 60 [] 0) 0), []⟩ 300
        [(10, UEvent.pauseE)] =
      some { st := { title := "1 minute", duration := 60, started := true, paused := true,
                     finished := false, args := [], creation_time := 0, end_time := 60,
                     stored_time_remaining := some 50, pinterval := 60, pstart := some 0,
                     pcancelled := true, pfired := false },
             calls := [] } ∧
    Sys.calls { st := { title := "1 minute", duration := 60, started := true, paused := true,
                        finished := false, args := [], creation_time := 0, end_time := 60,
                        stored_time_remaining := some 50, pinterval := 60, pstart := some 0,
                        pcancelled := true, pfired := false },
                calls := [] } = [] :=
  ⟨rfl, C4_cancel_prevents_fire_without_resume
    (SimpleTimer.start (mkSimpleTimer "1 minute" 60 [] 0) 0) [] 300
    [(10, UEvent.pauseE)] (by decide) _ rfl⟩

/-- C5: with N registered timers whose object identities are pairwise
distinct (titles may repeat) and N display handles, unregistering the timer
at position `i` by identity - as both `cancel_timer` and `show_alert` do -
removes exactly position `i` from both parallel lists, so the remaining
N-1 pairs keep their correspondence at matching indices: zipping the two
shortened lists gives exactly the original pairing minus the removed pair. -/
theorem C5_unregister_preserves_pairing (ts : List TimerObj) (ss : List Nat)
    (t : TimerObj) (i : Nat)
    (hlen : ts.length = ss.length) (hnodup : (ts.map TimerObj.oid).Nodup)
    (hget : ts.get? i = some t) :
    cancel_timer ⟨ts, ss⟩ t = some ⟨ts.eraseIdx i, ss.eraseIdx i⟩ ∧
    show_alert ⟨ts, ss⟩ t = some ⟨ts.eraseIdx i, ss.eraseIdx i⟩ ∧
    (ts.eraseIdx i).zip (ss.eraseIdx i) = (ts.zip ss).eraseIdx i ∧
    (ts.eraseIdx i).length = (ss.eraseIdx i).length := by
  have hidx := pyIndex_of_get ts i t hnodup hget
  have hi : i < ts.length := by
    obtain ⟨h, -⟩ := List.get?_eq_some.mp hget
    exact h
  have hi2 : i < ss.length := hlen ▸ hi
  have hpop : pyPop ss i = some (ss.get ⟨i, hi2⟩, ss.eraseIdx i) := by
    rw [pyPop, List.get?_eq_get hi2]
  have hrem : pyRemove ts t = some (ts.eraseIdx i) := by
    rw [pyRemove, hidx]
    rfl
  refine ⟨?_, ?_, zip_eraseIdx ts ss i hlen, ?_⟩
  · simp only [cancel_timer, hidx, hpop, hrem, Option.map_some']
  · simp only [show_alert, hidx, hpop, hrem, Option.map_some']
  · rw [List.length_eraseIdx_of_lt hi, List.length_eraseIdx_of_lt hi2, hlen]

/-- C5 witness: three registered timers, two of them sharing the title
"5 minutes"; the middle one is unregistered by identity. -/
theorem C5_witness :
    cancel_timer ⟨[⟨0, "5 minutes"⟩, ⟨1, "5 minutes"⟩, ⟨2, "1 minute"⟩], [10, 11, 12]⟩
        ⟨1, "5 minutes"⟩ =
      some ⟨(([⟨0, "5 minutes"⟩, ⟨1, "5 minutes"⟩, ⟨2, "1 minute"⟩] : List TimerObj).eraseIdx 1),
            (([10, 11, 12] : List Nat).eraseIdx 1)⟩ ∧
    show_alert ⟨[⟨0, "5 minutes"⟩, ⟨1, "5 minutes"⟩, ⟨2, "1 minute"⟩], [10, 11, 12]⟩
        ⟨1, "5 minutes"⟩ =
      some ⟨(([⟨0, "5 minutes"⟩, ⟨1, "5 minutes"⟩, ⟨2, "1 minute"⟩] : List TimerObj).eraseIdx 1),
            (([10, 11, 12] : List Nat).eraseIdx 1)⟩ ∧
    (([⟨0, "5 minutes"⟩, ⟨1, "5 minutes"⟩, ⟨2, "1 minute"⟩] : List TimerObj).eraseIdx 1).zip
        (([10, 11, 12] : List Nat).eraseIdx 1) =
      ((([⟨0, "5 minutes"⟩, ⟨1, "5 minutes"⟩, ⟨2, "1 minute"⟩] : List TimerObj).zip
        ([10, 11, 12] : List Nat)).eraseIdx 1) ∧
    (([⟨0, "5 minutes"⟩, ⟨1, "5 minutes"⟩, ⟨2, "1 minute"⟩] : List TimerObj).eraseIdx 1).length =
      (([10, 11, 12] : List Nat).eraseIdx 1).length :=
  C5_unregister_preserves_pairing
    [⟨0, "5 minutes"⟩, ⟨1, "5 minutes"⟩, ⟨2, "1 minute"⟩] [10, 11, 12]
    ⟨1, "5 minutes"⟩ 1 rfl (by decide) rfl

/-- C6: whenever the status indicator is updated, a zero count gives title
"No active timers" with the indicator disabled, a count of one gives title
"1 active timer", and every count greater than one gives the decimal count
followed by " active timers". -/
theorem C6_status_indicator_label (reg : Registry) (ind : StatusIndicator) :
    (reg.active_timers.length = 0 → update_status_indicator reg ind =
      { title := "No active timers", enabled := false }) ∧
    (reg.active_timers.length = 1 →
      (update_status_indicator reg ind).title = "1 active timer") ∧
    (1 < reg.active_timers.length →
      (update_status_indicator reg ind).title =
        toString reg.active_timers.length ++ " active timers") := by
  refine ⟨fun h => by simp [update_status_indicator, h],
    fun h => by simp [update_status_indicator, h], fun h => ?_⟩
  have h0 : ¬ reg.active_timers.length = 0 := by omega
  have h1 : ¬ reg.active_timers.length = 1 := by omega
  simp [update_status_indicator, h0, h1]

/-- C6 witness: the indicator updated at counts 0, 1 and 2. -/
theorem C6_witness :
    update_status_indicator ⟨[], []⟩ ⟨"old", true⟩ = ⟨"No active timers", false⟩ ∧
    (update_status_indicator ⟨[⟨0, "1 minute"⟩], [5]⟩ ⟨"old", true⟩).title =
      "1 active timer" ∧
    (update_status_indicator ⟨[⟨0, "a"⟩, ⟨1, "b"⟩], [5, 6]⟩ ⟨"old", true⟩).title =
      toString (Registry.active_timers ⟨[⟨0, "a"⟩, ⟨1, "b"⟩], [5, 6]⟩).length ++
        " active timers" :=
  ⟨(C6_status_indicator_label ⟨[], []⟩ ⟨"old", true⟩).1 rfl,
   (C6_status_indicator_label ⟨[⟨0, "1 minute"⟩], [5]⟩ ⟨"old", true⟩).2.1 rfl,
   (C6_status_indicator_label ⟨[⟨0, "a"⟩, ⟨1, "b"⟩], [5, 6]⟩ ⟨"old", true⟩).2.2 (by decide)⟩

/-- C7 counterexample: the claim quantifies over every displayed
remaining-time string, but the initial submenu label built by `start_timer`
applies no zero-padding: at 125 seconds it shows "2:5", not "02:05". -/
theorem C7_counterexample :
    start_time_str 125 = "2:5" ∧ start_time_str 125 ≠ "02:05" ∧
    submenu_time_str 125 = "02:05" :=
  ⟨by decide, by decide, by decide⟩

/-- C7 (amended): the remaining-time strings computed on refresh by
`update_submenus` (and identically by `pause_timer`) are zero-padded
two-digit fields - the `MM:SS` part always has length 5 - with the hours
segment present exactly when the remaining time is at least one hour:
125 seconds formats as "02:05" and 3725 seconds as "01:02:05".  The initial
string built by `start_timer`, however, is unpadded: 125 seconds gives
"2:5". -/
theorem C7_display_format_amended (t : ℤ) :
    submenu_time_str 125 = "02:05" ∧
    submenu_time_str 3725 = "01:02:05" ∧
    (mmss_str t).length = 5 ∧
    (t < 3600 → submenu_time_str t = mmss_str t) ∧
    (3600 ≤ t → submenu_time_str t =
      zfill2 (toString (divmod t 3600).1) ++ ":" ++ mmss_str t) ∧
    start_time_str 125 = "2:5" := by
  refine ⟨by decide, by decide, mmss_str_length t, fun h => ?_, fun h => ?_, by decide⟩
  · have hle : Int.fdiv t 3600 ≤ 0 := by
      rw [Int.fdiv_eq_ediv _ (by decide)]
      omega
    rw [submenu_time_str]
    simp only [divmod]
    rw [if_neg (by omega)]
  · have hpos : 0 < Int.fdiv t 3600 := by
      rw [Int.fdiv_eq_ediv _ (by decide)]
      omega
    rw [submenu_time_str]
    simp only [divmod]
    rw [if_pos hpos]

/-- C7 witness: the hours segment is absent at 125 seconds and present at
7000 seconds. -/
theorem C7_witness :
    submenu_time_str 125 = mmss_str 125 ∧
    submenu_time_str 7000 = zfill2 (toString (divmod 7000 3600).1) ++ ":" ++ mmss_str 7000 :=
  ⟨(C7_display_format_amended 125).2.2.2.1 (by decide),
   (C7_display_format_amended 7000).2.2.2.2.1 (by decide)⟩

/-- C8: when the text entered into the custom-duration dialog is one that
`float()` rejects, `create_custom_timer` aborts with the conversion error
before any mutation: the error carries the registry and indicator exactly
as they were on entry - no timer appended, no submenu handle appended -
and the handler returns to the host rather than terminating the process. -/
theorem C8_non_numeric_input_aborts (reg : Registry) (ind : StatusIndicator)
    (item_title text : String) (oid handle : Nat)
    (hbad : pyFloat text = none) :
    create_custom_timer reg ind item_title (some text) oid handle =
      Except.error (reg, ind) := by
  simp [create_custom_timer, hbad]

/-- C8 witness: the non-numeric entry "five" aborts the creation on an
empty registry. -/
theorem C8_witness :
    create_custom_timer ⟨[], []⟩ ⟨"No active timers", false⟩ "Custom Timer..."
        (some "five") 7 8 =
      Except.error (⟨[], []⟩, ⟨"No active timers", false⟩) :=
  C8_non_numeric_input_aborts ⟨[], []⟩ ⟨"No active timers", false⟩ "Custom Timer..."
    "five" 7 8 (by decide)

/-- C9: `pause()` on an already-paused timer is idempotent: composing a
second `pause` (at any instant) after a first changes nothing at all - the
stored remaining duration, the paused flag and every other attribute are
those of the first pause - and after a pause the pending completion
callback is cancelled, so none is scheduled to fire. -/
theorem C9_pause_idempotent (st : SimpleTimer) (t t' : ℤ) :
    (SimpleTimer.pause st t).bind (fun s => SimpleTimer.pause s t') =
      SimpleTimer.pause st t ∧
    (∀ s, SimpleTimer.pause st t = some s → SimpleTimer.fireTime s = none) := by
  constructor
  · cases hfin : st.finished with
    | true => simp [SimpleTimer.pause, SimpleTimer.time_remaining, hfin]
    | false =>
      cases hp : st.paused with
      | false => simp [SimpleTimer.pause, SimpleTimer.time_remaining, hfin, hp]
      | true =>
        cases hst : st.stored_time_remaining with
        | none => simp [SimpleTimer.pause, SimpleTimer.time_remaining, hfin, hp, hst]
        | some tr => simp [SimpleTimer.pause, SimpleTimer.time_remaining, hfin, hp, hst]
  · intro s hs
    cases htr : SimpleTimer.time_remaining st t with
    | none => simp [SimpleTimer.pause, htr] at hs
    | some tr =>
      simp only [SimpleTimer.pause, htr, Option.map_some'] at hs
      injection hs with hs
      subst hs
      cases hps : st.pstart <;> simp [SimpleTimer.fireTime, hps]

/-- C9 witness: a concrete started one-minute timer paused at 30 and paused
again at 45. -/
theorem C9_witness :
    (SimpleTimer.pause (SimpleTimer.start (mkSimpleTimer "1 minute" 60 [] 0) 0) 30).bind
        (fun s => SimpleTimer.pause s 45) =
      SimpleTimer.pause (SimpleTimer.start (mkSimpleTimer "1 minute" 60 [] 0) 0) 30 ∧
    SimpleTimer.fireTime
      { title := "1 minute", duration := 60, started := true, paused := true,
        finished := false, args := [], creation_time := 0, end_time := 60,
        stored_time_remaining := some 30, pinterval := 60, pstart := some 0,
        pcancelled := true, pfired := false } = none :=
  ⟨(C9_pause_idempotent (SimpleTimer.start (mkSimpleTimer "1 minute" 60 [] 0) 0) 30 45).1,
   (C9_pause_idempotent (SimpleTimer.start (mkSimpleTimer "1 minute" 60 [] 0) 0) 30 45).2 _
     (by decide)⟩

/-- C10: `cancel()` writes no attribute of the `SimpleTimer` object - title,
duration, started, paused, finished, args, creation time, end time and the
stored remaining duration are all unchanged - and in particular it does not
set `finished`, so a cancelled, unpaused timer's `time_remaining` keeps
returning `end_time - now`, which is negative (not zero) once `now` passes
`end_time`. -/
theorem C10_cancel_frame (st : SimpleTimer) (now : ℤ) :
    (SimpleTimer.cancel st).title = st.title ∧
    (SimpleTimer.cancel st).duration = st.duration ∧
    (SimpleTimer.cancel st).started = st.started ∧
    (SimpleTimer.cancel st).paused = st.paused ∧
    (SimpleTimer.cancel st).finished = st.finished ∧
    (SimpleTimer.cancel st).args = st.args ∧
    (SimpleTimer.cancel st).creation_time = st.creation_time ∧
    (SimpleTimer.cancel st).end_time = st.end_time ∧
    (SimpleTimer.cancel st).stored_time_remaining = st.stored_time_remaining ∧
    (st.paused = false → st.finished = false →
      SimpleTimer.time_remaining (SimpleTimer.cancel st) now = some (st.end_time - now) ∧
      (st.end_time < now → st.end_time - now < 0)) := by
  refine ⟨rfl, rfl, rfl, rfl, rfl, rfl, rfl, rfl, rfl, fun h1 h2 => ⟨?_, fun h3 => by omega⟩⟩
  simp [SimpleTimer.cancel, SimpleTimer.time_remaining, h1, h2]

/-- C10 witness: a concrete cancelled one-minute timer read at instant 70,
past its end time. -/
theorem C10_witness :
    (SimpleTimer.cancel (mkSimpleTimer "1 minute" 60 [] 0)).finished =
      (mkSimpleTimer "1 minute" 60 [] 0).finished ∧
    SimpleTimer.time_remaining (SimpleTimer.cancel (mkSimpleTimer "1 minute" 60 [] 0)) 70 =
      some ((mkSimpleTimer "1 minute" 60 [] 0).end_time - 70) ∧
    (mkSimpleTimer "1 minute" 60 [] 0).end_time - 70 < 0 :=
  ⟨(C10_cancel_frame (mkSimpleTimer "1 minute" 60 [] 0) 70).2.2.2.2.1,
   ((C10_cancel_frame (mkSimpleTimer "1 minute" 60 [] 0) 70).2.2.2.2.2.2.2.2.2 rfl rfl).1,
   ((C10_cancel_frame (mkSimpleTimer "1 minute" 60 [] 0) 70).2.2.2.2.2.2.2.2.2 rfl rfl).2
     (by decide)⟩

end MultiTimer
